import Mathlib

/-!
Verification development for the Sentryal InSAR serverless pipeline
(`runpod-serverless/handler.py`, `isce3_processor.py`, `utils.py`).

Python floating-point values are modelled as real numbers (`Real`) where
irrational constants (pi) occur and as rationals (`Rat`) elsewhere, so that
concrete evaluations are decidable.  Python `int()` truncation is modelled
explicitly.  Fallible Python code is modelled with `Except`/`Option`, and the
on-disk caches are modelled by explicit state passing.
-/

namespace Sentryal

/-! ## Phase-to-displacement conversion (isce3_processor.py, lines 33-34 and 485) -/

/-- Model of `SENTINEL1_WAVELENGTH_M = 0.0555041` (C-band wavelength, metres). -/
noncomputable def SENTINEL1_WAVELENGTH_M : ℝ := 0.0555041

/-- Model of `RAD_TO_MM = (SENTINEL1_WAVELENGTH_M * 1000) / (4 * np.pi)`. -/
noncomputable def RAD_TO_MM : ℝ := SENTINEL1_WAVELENGTH_M * 1000 / (4 * Real.pi)

/-- Model of the per-pixel conversion `displacement_mm = phase * RAD_TO_MM`
performed in `_geocode` (isce3_processor.py line 485). -/
noncomputable def losDisplacementMm (phase : ℝ) : ℝ := phase * RAD_TO_MM

/-! ## Point sampler (`extract_displacement_at_points`, utils.py lines 168-262) -/

/-- Model of Python `int(q)`: truncation toward zero. -/
def pyTrunc (q : ℚ) : ℤ := if 0 ≤ q then ⌊q⌋ else ⌈q⌉

/-- Single-band raster as read by the sampler: pixel grid, nodata sentinel and
the geotransform entries used by the code (`gt[0]`, `gt[1]`, `gt[3]`, `gt[5]`).
`data row col` is `disp_data[row, col]`. -/
structure Raster where
  width : ℕ
  height : ℕ
  data : ℕ → ℕ → ℚ
  nodata : ℚ
  originX : ℚ
  pixelWidth : ℚ
  originY : ℚ
  pixelHeight : ℚ

/-- Requested point (`{"id": ..., "lat": ..., "lon": ...}`); `none` models a
missing dictionary key. -/
structure Point where
  id : Option String
  lat : Option ℚ
  lon : Option ℚ
deriving DecidableEq, Repr

/-- One entry of the sampler result list.  `latOut`/`lonOut` model the
`"lat"`/`"lon"` keys the code adds only on the in-bounds path. -/
structure PointSample where
  point_id : Option String
  displacement_mm : Option ℚ
  coherence : Option ℚ
  valid : Bool
  error : Option String
  latOut : Option ℚ
  lonOut : Option ℚ
deriving DecidableEq, Repr

/-- Model of `px = int((lon - gt[0]) / gt[1])` (utils.py line 227). -/
def pixelX (r : Raster) (lon : ℚ) : ℤ := pyTrunc ((lon - r.originX) / r.pixelWidth)

/-- Model of `py = int((lat - gt[3]) / gt[5])` (utils.py line 228). -/
def pixelY (r : Raster) (lat : ℚ) : ℤ := pyTrunc ((lat - r.originY) / r.pixelHeight)

/-- Model of the per-point body of the loop in `extract_displacement_at_points`
(utils.py lines 209-255): missing-coordinate check, pixel-index computation,
bounds check, value extraction and the nodata validity check.  The NaN check of
the code has no rational counterpart and the nodata comparison alone is kept. -/
def samplePoint (r : Raster) (coh : Option (ℕ → ℕ → ℚ)) (p : Point) : PointSample :=
  match p.lat, p.lon with
  | some lat, some lon =>
    let px := pixelX r lon
    let py := pixelY r lat
    if px < 0 ∨ (r.width : ℤ) ≤ px ∨ py < 0 ∨ (r.height : ℤ) ≤ py then
      ⟨p.id, none, none, false, some "Point outside raster bounds", none, none⟩
    else
      let v := r.data py.toNat px.toNat
      let cv := coh.map (fun c => c py.toNat px.toNat)
      let ok := decide (v ≠ r.nodata)
      ⟨p.id, if ok then some v else none, cv, ok, none, some lat, some lon⟩
  | _, _ => ⟨p.id, none, none, false, some "Missing coordinates", none, none⟩

/-- Model of `extract_displacement_at_points` for an opened raster: the Python
loop appends one entry per requested point to an accumulator list. -/
def extract_displacement_at_points (r : Raster) (coh : Option (ℕ → ℕ → ℚ))
    (points : List Point) : List PointSample :=
  points.foldl (fun acc p => acc ++ [samplePoint r coh p]) []

/-! ## DEM provider (`_prepare_dem` / `_create_synthetic_dem`,
isce3_processor.py lines 184-270) -/

/-- Bounding box `{"north", "south", "east", "west"}` in decimal degrees. -/
structure BBox where
  north : ℚ
  south : ℚ
  east : ℚ
  west : ℚ
deriving DecidableEq, Repr

/-- Margin added around the bbox before the cache key is computed
(`margin = 0.1` in `_prepare_dem`). -/
def demMargin : ℚ := 1/10

/-- Model of Python two-decimal formatting `f"{x:.2f}"` as an integer count of
hundredths (tie-breaking of binary floats is abstracted to `round`). -/
def round2 (q : ℚ) : ℤ := round (q * 100)

/-- DEM cache key: the four margin-expanded coordinates of the filename
`dem_{south:.2f}_{west:.2f}_{north:.2f}_{east:.2f}.tif`, as hundredths. -/
abbrev DemKey := ℤ × ℤ × ℤ × ℤ

/-- Cache key derived from a bbox in `_prepare_dem` (lines 192-198). -/
def demKey (b : BBox) : DemKey :=
  (round2 (b.south - demMargin), round2 (b.west - demMargin),
   round2 (b.north + demMargin), round2 (b.east + demMargin))

/-- Cached DEM file path determined by the key. -/
def demPath (k : DemKey) : String :=
  "dem_" ++ toString k.1 ++ "_" ++ toString k.2.1 ++ "_" ++ toString k.2.2.1
    ++ "_" ++ toString k.2.2.2 ++ ".tif"

/-- Axis-aligned geographic extent (west, south, east, north). -/
structure Extent where
  west : ℚ
  south : ℚ
  east : ℚ
  north : ℚ
deriving DecidableEq, Repr

/-- The `outputBounds=[west, south, east, north]` passed to `gdal.Warp` on the
download path of `_prepare_dem` (line 220): the margin-expanded bbox. -/
def downloadBounds (b : BBox) : Extent :=
  ⟨b.west - demMargin, b.south - demMargin, b.east + demMargin, b.north + demMargin⟩

/-- Extent actually covered by `_create_synthetic_dem` (lines 238-257): width
and height are `int((east - west) / 0.0003)` and `int((north - south) / 0.0003)`
of the ORIGINAL bbox, with origin at `(bbox.west, bbox.north)`. -/
def syntheticDemExtent (b : BBox) : Extent :=
  let ps : ℚ := 3/10000
  let w := pyTrunc ((b.east - b.west) / ps)
  let h := pyTrunc ((b.north - b.south) / ps)
  ⟨b.west, b.north - h * ps, b.west + w * ps, b.north⟩

/-- Raster content written by a DEM cache miss: a real download covering an
extent, or the synthetic fallback of constant elevation. -/
inductive DemContent where
  | downloaded (ext : Extent)
  | synthetic (ext : Extent) (elevation : ℚ)
deriving DecidableEq, Repr

/-- Result of one `_prepare_dem` call: returned path, updated set of cached
keys, whether a fetch/creation happened, and what content it wrote (`none` on a
cache hit). -/
structure DemCacheResult where
  path : String
  cache : List DemKey
  fetched : Bool
  content : Option DemContent
deriving DecidableEq, Repr

/-- Model of `_prepare_dem` (lines 184-236): compute the key from the
margin-expanded bbox; return the cached file if it exists; otherwise download
(covering `downloadBounds`) or, when the download fails, create the synthetic
flat DEM at elevation 100 from the ORIGINAL bbox (line 235 passes `bbox`, not
the expanded coordinates, to `_create_synthetic_dem`). -/
def prepare_dem (cache : List DemKey) (b : BBox) (downloadOk : Bool) : DemCacheResult :=
  if demKey b ∈ cache then ⟨demPath (demKey b), cache, false, none⟩
  else if downloadOk then
    ⟨demPath (demKey b), demKey b :: cache, true,
      some (DemContent.downloaded (downloadBounds b))⟩
  else
    ⟨demPath (demKey b), demKey b :: cache, true,
      some (DemContent.synthetic (syntheticDemExtent b) 100)⟩

/-! ## Granule stager (`_extract_safe`, isce3_processor.py lines 272-292) -/

/-- Error kind named by the spec for a malformed staged product. -/
inductive StagingError where
  | productDirNotFound
deriving DecidableEq, Repr

/-- Model of `_extract_safe`: the input path is abstracted to whether it is a
zip, its textual form, its stem, and the list of `*.SAFE` directories visible
next to the extraction directory after extraction.  The code returns the first
`.SAFE` directory when one exists and otherwise returns the extraction
directory `slc/<stem>`; it raises nothing on a missing product directory. -/
def extract_safe (isZip : Bool) (pathStr stem : String) (safeDirs : List String) :
    Except StagingError String :=
  if isZip then
    match safeDirs with
    | d :: _ => Except.ok d
    | [] => Except.ok ("slc/" ++ stem)
  else Except.ok pathStr

/-! ## Geocoding resampling (`_geocode`, isce3_processor.py lines 501-508) -/

/-- Linear interpolation into a row of pixels at fractional position `x`,
modelling `scipy.ndimage.zoom(..., order=1)` at one output sample (out-of-range
indices read as 0, which the concrete inputs below never exercise on the
blended samples). -/
def interp1 (v : List ℚ) (x : ℚ) : ℚ :=
  let i := (⌊x⌋ : ℤ)
  let t := x - i
  let a := v.getD i.toNat 0
  if t = 0 then a else (1 - t) * a + t * v.getD (i.toNat + 1) 0

/-- Model of one row of `scipy.ndimage.zoom(row, z, order=1)` as used by
`_geocode`: output sample `i` reads the input at position `i / z` by linear
interpolation. -/
def zoomRow (v : List ℚ) (z : ℚ) (outLen : ℕ) : List ℚ :=
  (List.range outLen).map (fun i => interp1 v ((i : ℚ) / z))

/-- The resampling the code comment announces ("simple nearest neighbor",
line 501), i.e. `order=0`: each output sample copies one input pixel. -/
def zoomRowNearest (v : List ℚ) (z : ℚ) (outLen : ℕ) : List ℚ :=
  (List.range outLen).map (fun i => v.getD (round ((i : ℚ) / z)).toNat 0)

/-! ## Granule download cache (`download_granule`, utils.py lines 23-92) -/

/-- State of the cached file for one granule name. -/
inductive FileState where
  | partialFile
  | completeFile
deriving DecidableEq, Repr

/-- Outcome of the network transfer attempted by `download_granule`. -/
inductive NetOutcome where
  | ok
  | failAfterWrite
  | failBeforeWrite
deriving DecidableEq, Repr

/-- Model of `download_granule` for a fixed granule name: if the output file
already exists it is returned without any transfer (lines 47-49); otherwise the
transfer runs and, on any exception, the partially written file is unlinked
before the exception propagates (lines 88-92).  Returns the new cache state and
either the file handed back or the propagated error. -/
def download_granule (cache : Option FileState) (net : NetOutcome) :
    Option FileState × Except String FileState :=
  match cache with
  | some f => (some f, Except.ok f)
  | none =>
    match net with
    | NetOutcome.ok => (some FileState.completeFile, Except.ok FileState.completeFile)
    | NetOutcome.failAfterWrite => (none, Except.error "Download failed")
    | NetOutcome.failBeforeWrite => (none, Except.error "Download failed")

/-! ## Job orchestration (`handler.py` and `process_pair`) -/

/-- A raised Python exception, as far as the claims need it: its message
(`str(e)`) and its formatted traceback. -/
structure PyError where
  msg : String
  trace : String
deriving DecidableEq, Repr

/-- The pipeline stages run inside `process_pair` (isce3_processor.py lines
110-145), in order. -/
inductive Stage where
  | prepareDem
  | extractSafeRef
  | extractSafeSec
  | coregister
  | formInterferogram
  | filterPhase
  | unwrapPhase
  | geocode
  | statistics
deriving DecidableEq, Repr

/-- Order in which `process_pair` invokes its stages. -/
def stageOrder : List Stage :=
  [Stage.prepareDem, Stage.extractSafeRef, Stage.extractSafeSec, Stage.coregister,
   Stage.formInterferogram, Stage.filterPhase, Stage.unwrapPhase, Stage.geocode,
   Stage.statistics]

/-- Behaviour of the environment for one job: which stages raise, and with what
exception (`none` means the stage succeeds). -/
def StageEnv : Type := Stage → Option PyError

/-- Result dictionary of `process_pair`, plus an execution trace recording the
stages that actually started (instrumentation to state that later stages do not
run). -/
structure ProcessResult where
  success : Bool
  error : Option String
  executed : List Stage
deriving DecidableEq, Repr

/-- Sequential stage execution inside the `try` of `process_pair`: the first
raising stage transfers control to the `except` block (lines 160-166), which
stores only `str(e)` in `result["error"]` and discards the traceback after
logging it. -/
def runStages (env : StageEnv) : List Stage → List Stage → ProcessResult
  | [], done => ⟨true, none, done⟩
  | s :: rest, done =>
    match env s with
    | some e => ⟨false, some e.msg, done ++ [s]⟩
    | none => runStages env rest (done ++ [s])

/-- Model of `process_pair` (isce3_processor.py lines 70-167). -/
def process_pair (env : StageEnv) : ProcessResult :=
  runStages env stageOrder []

/-- Job input dictionary; `none` models an absent key and `some ""` an empty
value (Python-falsy but present). -/
structure JobInput where
  job_id : Option String
  reference_granule : Option String
  secondary_granule : Option String
  reference_url : Option String
  secondary_url : Option String
  reference_path : Option String
  secondary_path : Option String
deriving DecidableEq, Repr

/-- Python truthiness of `job_input.get(field)`: present and non-empty. -/
def truthy : Option String → Bool
  | none => false
  | some s => decide (s ≠ "")

/-- Return value of `validate_input` (handler.py lines 263-278). -/
structure ValidationResult where
  valid : Bool
  error : Option String
deriving DecidableEq, Repr

/-- Model of `validate_input`: the three required fields are checked in order,
then the job must carry either both URLs or both local paths. -/
def validate_input (j : JobInput) : ValidationResult :=
  if ¬ truthy j.job_id then ⟨false, some "Missing required field: job_id"⟩
  else if ¬ truthy j.reference_granule then
    ⟨false, some "Missing required field: reference_granule"⟩
  else if ¬ truthy j.secondary_granule then
    ⟨false, some "Missing required field: secondary_granule"⟩
  else if ¬ ((truthy j.reference_url ∧ truthy j.secondary_url)
      ∨ (truthy j.reference_path ∧ truthy j.secondary_path)) then
    ⟨false, some "Must provide either URLs or paths for granules"⟩
  else ⟨true, none⟩

/-- Response returned by `handler` (fields relevant to the claims). -/
structure Response where
  job_id : String
  status : String
  error : Option String
  error_trace : Option String
deriving DecidableEq, Repr

/-- Model of `traceback.format_exc()` in the handler's `except` block: the
formatted trace of the exception caught THERE, a function of that exception's
message only (the original stage traceback never reaches this point). -/
def caughtTrace (m : String) : String := "Traceback (most recent call last): " ++ m

/-- Model of `str(KeyError(k))`: Python renders the missing key in quotes. -/
def keyErrorMsg (k : String) : String := "\x27" ++ k ++ "\x27"

/-- Model of `handler` (handler.py lines 90-256): validation, the unconditional
`job_input["reference_url"]`/`["secondary_url"]` lookups of the download step
(lines 116-127, `KeyError` when absent), the `process_pair` call, the
`RuntimeError` re-raise on pipeline failure (line 153) and the `except` block
that builds the error response (lines 231-246).  The success-path result
payload is abstracted away; network download outcomes other than the dict
lookups are not modelled. -/
def handler (j : JobInput) (env : StageEnv) : Response :=
  let jid := (j.job_id).getD "unknown"
  let v := validate_input j
  if ¬ v.valid then
    let m := "Invalid input: " ++ v.error.getD "None"
    ⟨jid, "error", some m, some (caughtTrace m)⟩
  else
    match j.reference_url with
    | none => ⟨jid, "error", some (keyErrorMsg "reference_url"),
        some (caughtTrace (keyErrorMsg "reference_url"))⟩
    | some _ =>
      match j.secondary_url with
      | none => ⟨jid, "error", some (keyErrorMsg "secondary_url"),
          some (caughtTrace (keyErrorMsg "secondary_url"))⟩
      | some _ =>
        let pr := process_pair env
        if pr.success then ⟨jid, "success", none, none⟩
        else
          let m := "ISCE3 processing failed: " ++ pr.error.getD "None"
          ⟨jid, "error", some m, some (caughtTrace m)⟩

/-! ## Concrete fixtures used by witnesses and counterexamples -/

/-- Whether the stager result is a raised error. -/
def stagerRaises : Except StagingError String → Bool
  | Except.error _ => true
  | Except.ok _ => false

/-- A 10 by 10 raster with one-degree pixels, origin (0, 10), value 5. -/
def rasterW : Raster := ⟨10, 10, fun _ _ => 5, -9999, 0, 1, 10, -1⟩

/-- A point far outside `rasterW`. -/
def pointOOB : Point := ⟨some "p1", some 50, some 50⟩

/-- The bbox of the spec scenario: north 45, south 44, east 5, west 4. -/
def bbox0 : BBox := ⟨45, 44, 5, 4⟩

/-- A nearby bbox whose margin-expanded coordinates round to the same
two-decimal cache key as `bbox0`. -/
def bboxB : BBox := ⟨45.001, 44.001, 5.001, 4.001⟩

/-- A fully populated job input (URLs and paths present and non-empty). -/
def j0 : JobInput :=
  ⟨some "job-1", some "GRANULE_A", some "GRANULE_B", some "http-ref", some "http-sec",
   some "/in/a.zip", some "/in/b.zip"⟩

/-- A job input that supplies local paths but no download URLs. -/
def jPathOnly : JobInput :=
  ⟨some "job-2", some "GRANULE_A", some "GRANULE_B", none, none,
   some "/in/a.zip", some "/in/b.zip"⟩

/-- Environment in which only the coregistration stage raises. -/
def envA : StageEnv := fun s =>
  match s with
  | Stage.coregister => some ⟨"boom", "traceA"⟩
  | _ => none

/-- Environment in which only the unwrapping stage raises, with a different
traceback but the same message as `envA`. -/
def envB : StageEnv := fun s =>
  match s with
  | Stage.unwrapPhase => some ⟨"boom", "traceB"⟩
  | _ => none

/-- Environment in which every stage succeeds. -/
def envNone : StageEnv := fun _ => none

/-! ## Helper lemmas -/

theorem foldl_append_singleton (f : Point → PointSample) :
    ∀ (l : List Point) (acc : List PointSample),
      l.foldl (fun a x => a ++ [f x]) acc = acc ++ l.map f := by
  intro l
  induction l with
  | nil => intro acc; simp
  | cons x xs ih => intro acc; simp [ih]

theorem extract_eq_map (r : Raster) (coh : Option (ℕ → ℕ → ℚ)) (points : List Point) :
    extract_displacement_at_points r coh points = points.map (samplePoint r coh) := by
  simpa using foldl_append_singleton (samplePoint r coh) points []

theorem prepare_dem_path (cache : List DemKey) (b : BBox) (ok : Bool) :
    (prepare_dem cache b ok).path = demPath (demKey b) := by
  unfold prepare_dem
  split
  · rfl
  · split <;> rfl

theorem prepare_dem_key_mem (cache : List DemKey) (b : BBox) (ok : Bool) :
    demKey b ∈ (prepare_dem cache b ok).cache := by
  unfold prepare_dem
  split
  · simpa using ‹demKey b ∈ cache›
  · split <;> simp

theorem prepare_dem_hit (cache : List DemKey) (b : BBox) (ok : Bool)
    (h : demKey b ∈ cache) :
    prepare_dem cache b ok = ⟨demPath (demKey b), cache, false, none⟩ := by
  unfold prepare_dem
  rw [if_pos h]

theorem runStages_first_fail (env : StageEnv) (e : PyError) :
    ∀ (pre : List Stage) (s : Stage) (post done : List Stage),
      (∀ t ∈ pre, env t = none) → env s = some e →
      runStages env (pre ++ s :: post) done = ⟨false, some e.msg, done ++ pre ++ [s]⟩ := by
  intro pre
  induction pre with
  | nil =>
    intro s post done _ hs
    simp [runStages, hs]
  | cons a as ih =>
    intro s post done hpre hs
    have ha : env a = none := hpre a (by simp)
    have hrest : ∀ t ∈ as, env t = none := fun t ht => hpre t (by simp [ht])
    simp only [List.cons_append, runStages, ha]
    rw [List.append_eq, ih s post (done ++ [a]) hrest hs]
    simp

/-! ## Claim theorems -/

/-- C1: for every unwrapped phase value `p` (radians), the geocoding stage
converts it to exactly `p * 0.0555041 * 1000 / (4 * pi)` millimetres of
line-of-sight displacement, i.e. `phase * wavelength * 1000 / (4 * pi)` with
the fixed Sentinel-1 wavelength constant. -/
theorem c1_phase_to_displacement (p : ℝ) :
    losDisplacementMm p = p * 0.0555041 * 1000 / (4 * Real.pi) := by
  unfold losDisplacementMm RAD_TO_MM SENTINEL1_WAVELENGTH_M
  ring

/-- C3: a requested point with coordinates present whose computed pixel index
falls outside the raster extent yields an entry with `valid = false`, null
displacement and coherence, and error "Point outside raster bounds"; the
sampler is a total function, so no exception is raised for such a point. -/
theorem c3_out_of_bounds (r : Raster) (coh : Option (ℕ → ℕ → ℚ)) (p : Point)
    (lat lon : ℚ) (hlat : p.lat = some lat) (hlon : p.lon = some lon)
    (hoob : pixelX r lon < 0 ∨ (r.width : ℤ) ≤ pixelX r lon
      ∨ pixelY r lat < 0 ∨ (r.height : ℤ) ≤ pixelY r lat) :
    samplePoint r coh p =
      ⟨p.id, none, none, false, some "Point outside raster bounds", none, none⟩ := by
  rcases p with ⟨i, la, lo⟩
  have hla : la = some lat := hlat
  have hlo : lo = some lon := hlon
  subst hla
  subst hlo
  simp only [samplePoint]
  rw [if_pos hoob]

/-- C3 witness: the point (50, 50) lies outside the ten-by-ten raster
`rasterW` and is rejected with the expected entry. -/
theorem c3_witness :
    samplePoint rasterW none pointOOB =
      ⟨some "p1", none, none, false, some "Point outside raster bounds", none, none⟩ :=
  c3_out_of_bounds rasterW none pointOOB 50 50 rfl rfl
    (by simp [pixelX, pixelY, pyTrunc, rasterW])

/-- C4: the point sampler returns exactly one result per input point, in input
order, and each entry is a function of its own point alone, so one invalid
point never perturbs any other entry. -/
theorem c4_one_result_per_point (r : Raster) (coh : Option (ℕ → ℕ → ℚ))
    (points : List Point) :
    (extract_displacement_at_points r coh points).length = points.length ∧
    ∀ i : ℕ, (extract_displacement_at_points r coh points).get? i
      = (points.get? i).map (samplePoint r coh) := by
  rw [extract_eq_map]
  constructor
  · simp
  · intro i
    simp [List.get?_map]

/-- C5: getDem is idempotent with respect to the cache key: if two bounding
boxes produce the same margin-expanded, two-decimal cache key, the second call
returns the same file path as the first, performs no fetch, and leaves the
cache unchanged. -/
theorem c5_dem_cache_idempotent (cache : List DemKey) (b1 b2 : BBox) (ok1 ok2 : Bool)
    (hk : demKey b1 = demKey b2) :
    (prepare_dem (prepare_dem cache b1 ok1).cache b2 ok2).path
        = (prepare_dem cache b1 ok1).path ∧
    (prepare_dem (prepare_dem cache b1 ok1).cache b2 ok2).fetched = false ∧
    (prepare_dem (prepare_dem cache b1 ok1).cache b2 ok2).cache
        = (prepare_dem cache b1 ok1).cache := by
  have hmem : demKey b2 ∈ (prepare_dem cache b1 ok1).cache :=
    hk ▸ prepare_dem_key_mem cache b1 ok1
  rw [prepare_dem_hit (prepare_dem cache b1 ok1).cache b2 ok2 hmem]
  refine ⟨?_, rfl, rfl⟩
  rw [prepare_dem_path cache b1 ok1, hk]

/-- C5 witness: preparing the DEM twice for the spec scenario bbox returns the
cached path on the second call with no re-fetch. -/
theorem c5_witness :
    (prepare_dem (prepare_dem [] bbox0 true).cache bbox0 false).path
        = (prepare_dem [] bbox0 true).path ∧
    (prepare_dem (prepare_dem [] bbox0 true).cache bbox0 false).fetched = false ∧
    (prepare_dem (prepare_dem [] bbox0 true).cache bbox0 false).cache
        = (prepare_dem [] bbox0 true).cache :=
  c5_dem_cache_idempotent [] bbox0 bbox0 true false rfl

/-- C6 counterexample: at the spec scenario bbox the fallback raster is the
synthetic flat DEM at elevation 100, but its extent is derived from the
original bounding box and differs from the margin-expanded extent the download
(`gdal.Warp` with `outputBounds`) would have covered, contrary to the claim
that both cover the same extent. -/
theorem c6_counterexample :
    (prepare_dem [] bbox0 false).content
        = some (DemContent.synthetic (syntheticDemExtent bbox0) 100) ∧
    syntheticDemExtent bbox0 ≠ downloadBounds bbox0 := by
  constructor
  · simp [prepare_dem]
  · intro h
    have hw := congrArg Extent.west h
    rw [syntheticDemExtent, downloadBounds] at hw
    norm_num [bbox0, demMargin] at hw

/-- C6 amended: when the DEM download fails on a cache miss, `_prepare_dem`
writes a synthetic flat raster of constant elevation 100 whose extent is
derived from the ORIGINAL (unexpanded) bounding box — not from the
margin-expanded bounds the download would have used — and returns the cache
path normally so the pipeline proceeds. -/
theorem c6_synthetic_fallback (cache : List DemKey) (b : BBox)
    (hmiss : demKey b ∉ cache) :
    (prepare_dem cache b false).content
        = some (DemContent.synthetic (syntheticDemExtent b) 100) ∧
    (prepare_dem cache b false).path = demPath (demKey b) ∧
    (prepare_dem cache b false).fetched = true := by
  unfold prepare_dem
  rw [if_neg hmiss]
  exact ⟨rfl, rfl, rfl⟩

/-- C6 witness: concrete instance of the amended fallback behaviour on an
empty cache. -/
theorem c6_witness :
    (prepare_dem [] bbox0 false).content
        = some (DemContent.synthetic (syntheticDemExtent bbox0) 100) ∧
    (prepare_dem [] bbox0 false).path = demPath (demKey bbox0) ∧
    (prepare_dem [] bbox0 false).fetched = true :=
  c6_synthetic_fallback [] bbox0 (by simp)

/-- C7: evaluation of the geocoding resampling at a failing input.  The code
resamples with `scipy.ndimage.zoom(..., order=1)` (linear), although its own
comment announces "simple nearest neighbor": on a row whose first pixel is the
nodata sentinel −9999, the linear output blends the sentinel with the adjacent
valid pixel into −9999/2 — a value that is neither nodata nor free of nodata
influence — whereas the announced nearest-neighbour resampling (order 0)
keeps every output pixel equal to some input pixel, preserving the sentinel
as the claim requires. -/
theorem c7_linear_zoom_blends_nodata :
    zoomRow [-9999, 0, 0, 0] 2 8 = [-9999, -9999/2, 0, 0, 0, 0, 0, 0] ∧
    (-9999/2 : ℚ) ≠ -9999 ∧ (-9999/2 : ℚ) ≠ 0 ∧
    zoomRowNearest [-9999, 0, 0, 0] 2 8 = [-9999, 0, 0, 0, 0, 0, 0, 0] := by
  refine ⟨?_, by norm_num, by norm_num, ?_⟩
  · rw [zoomRow, show List.range 8 = [0, 1, 2, 3, 4, 5, 6, 7] from rfl]
    simp only [List.map]
    norm_num [interp1, show ((0 : ℤ)).toNat = 0 from rfl,
      show ((1 : ℤ)).toNat = 1 from rfl, show ((2 : ℤ)).toNat = 2 from rfl,
      show ((3 : ℤ)).toNat = 3 from rfl, show ((4 : ℤ)).toNat = 4 from rfl]
  · rw [zoomRowNearest, show List.range 8 = [0, 1, 2, 3, 4, 5, 6, 7] from rfl]
    simp only [List.map]
    norm_num [round_eq, show ((0 : ℤ)).toNat = 0 from rfl,
      show ((1 : ℤ)).toNat = 1 from rfl, show ((2 : ℤ)).toNat = 2 from rfl,
      show ((3 : ℤ)).toNat = 3 from rfl, show ((4 : ℤ)).toNat = 4 from rfl]

/-- C8 counterexample: extracting a zip after which no `.SAFE` directory is
visible does NOT fail with a `StagingError`: `_extract_safe` returns the
extraction directory path `slc/<stem>` instead. -/
theorem c8_counterexample :
    extract_safe true "S1A_prod.zip" "S1A_prod" [] = Except.ok "slc/S1A_prod" ∧
    stagerRaises (extract_safe true "S1A_prod.zip" "S1A_prod" []) = false := by
  exact ⟨rfl, rfl⟩

/-- C8 amended: when the expected canonical `.SAFE` product directory is not
found after extraction, the stager returns the extraction directory path
`slc/<stem>` normally instead of failing with a `StagingError`. -/
theorem c8_missing_safe_dir_returns_path (pathStr stem : String) :
    extract_safe true pathStr stem [] = Except.ok ("slc/" ++ stem) := by
  rfl

/-- C9: a job input that supplies `reference_path`/`secondary_path` but no
`reference_url`/`secondary_url` passes validation, yet the handler then reads
`job_input["reference_url"]` unconditionally, so the job ends with status
"error" carrying the `KeyError` message. -/
theorem c9_path_only_job_fails (j : JobInput) (env : StageEnv)
    (hjid : truthy j.job_id = true) (hrg : truthy j.reference_granule = true)
    (hsg : truthy j.secondary_granule = true)
    (hrp : truthy j.reference_path = true) (hsp : truthy j.secondary_path = true)
    (hru : j.reference_url = none) (hsu : j.secondary_url = none) :
    (validate_input j).valid = true ∧
    (handler j env).status = "error" ∧
    (handler j env).error = some (keyErrorMsg "reference_url") := by
  have hv : validate_input j = ⟨true, none⟩ := by
    unfold validate_input
    simp [hjid, hrg, hsg, hrp, hsp]
  refine ⟨by rw [hv], ?_, ?_⟩ <;> simp [handler, hv, hru]

/-- C9 witness: the concrete path-only job `jPathOnly` passes validation and
still ends with status "error" and the `KeyError` message. -/
theorem c9_witness :
    (validate_input jPathOnly).valid = true ∧
    (handler jPathOnly envNone).status = "error" ∧
    (handler jPathOnly envNone).error = some (keyErrorMsg "reference_url") :=
  c9_path_only_job_fails jPathOnly envNone rfl rfl rfl rfl rfl rfl rfl

/-- C10: if a download fails (any exception, including one raised after a
partial write), the partial file is removed before the exception propagates,
leaving the cache as if the call never happened; consequently a later call
can neither observe nor return a partial granule. -/
theorem c10_failed_download_leaves_no_partial (net1 net2 : NetOutcome) (e : String)
    (hfail : (download_granule none net1).2 = Except.error e) :
    (download_granule none net1).1 = none ∧
    (download_granule ((download_granule none net1).1) net2).1
        ≠ some FileState.partialFile ∧
    (download_granule ((download_granule none net1).1) net2).2
        ≠ Except.ok FileState.partialFile := by
  cases net1 <;> simp_all [download_granule] <;> cases net2 <;>
    simp [download_granule]

/-- C10 witness: a download that fails after a partial write leaves no file,
and the retry that succeeds returns a complete granule. -/
theorem c10_witness :
    (download_granule none NetOutcome.failAfterWrite).1 = none ∧
    (download_granule ((download_granule none NetOutcome.failAfterWrite).1)
        NetOutcome.ok).1 ≠ some FileState.partialFile ∧
    (download_granule ((download_granule none NetOutcome.failAfterWrite).1)
        NetOutcome.ok).2 ≠ Except.ok FileState.partialFile :=
  c10_failed_download_leaves_no_partial NetOutcome.failAfterWrite NetOutcome.ok
    "Download failed" rfl

/-- C2 counterexample: two jobs identical except for the failing pipeline
stage and that stage's traceback produce IDENTICAL responses (`envA` fails at
coregistration with trace "traceA", `envB` fails at unwrapping with trace
"traceB"), so the response cannot carry the originating stage name nor the
original exception's trace, contrary to the claim. -/
theorem c2_counterexample :
    handler j0 envA = handler j0 envB ∧
    envA Stage.coregister = some ⟨"boom", "traceA"⟩ ∧
    envA Stage.unwrapPhase = none ∧
    envB Stage.coregister = none ∧
    envB Stage.unwrapPhase = some ⟨"boom", "traceB"⟩ := by
  exact ⟨rfl, rfl, rfl, rfl, rfl⟩

/-- C2 amended: when a pipeline stage raises, the job response has status
"error" and carries the original exception's message embedded in the error
field (prefixed "ISCE3 processing failed: "); the stages after the failing one
do not run and no retry happens (the executed list is exactly the prefix up to
and including the failing stage).  The originating stage name is not carried,
and the response's trace is the handler's re-raised `RuntimeError` trace — a
function of the wrapped message only — not the original stage trace, which is
only logged. -/
theorem c2_stage_failure_response (j : JobInput) (env : StageEnv) (u1 u2 : String)
    (pre post : List Stage) (s : Stage) (e : PyError)
    (hv : (validate_input j).valid = true)
    (hu1 : j.reference_url = some u1) (hu2 : j.secondary_url = some u2)
    (hord : stageOrder = pre ++ s :: post)
    (hpre : ∀ t ∈ pre, env t = none) (hs : env s = some e) :
    (handler j env).status = "error" ∧
    (handler j env).error = some ("ISCE3 processing failed: " ++ e.msg) ∧
    (handler j env).error_trace
        = some (caughtTrace ("ISCE3 processing failed: " ++ e.msg)) ∧
    (process_pair env).executed = pre ++ [s] := by
  have hpp : process_pair env = ⟨false, some e.msg, pre ++ [s]⟩ := by
    unfold process_pair
    rw [hord]
    simpa using runStages_first_fail env e pre s post [] hpre hs
  refine ⟨?_, ?_, ?_, by rw [hpp]⟩ <;> simp [handler, hv, hu1, hu2, hpp]

/-- C2 witness: in environment `envA` the coregistration stage raises "boom";
the response reports status "error" with the wrapped message and the pipeline
stops right after coregistration. -/
theorem c2_witness :
    (handler j0 envA).status = "error" ∧
    (handler j0 envA).error = some ("ISCE3 processing failed: " ++ "boom") ∧
    (handler j0 envA).error_trace
        = some (caughtTrace ("ISCE3 processing failed: " ++ "boom")) ∧
    (process_pair envA).executed
        = [Stage.prepareDem, Stage.extractSafeRef, Stage.extractSafeSec]
            ++ [Stage.coregister] :=
  c2_stage_failure_response j0 envA "http-ref" "http-sec"
    [Stage.prepareDem, Stage.extractSafeRef, Stage.extractSafeSec]
    [Stage.formInterferogram, Stage.filterPhase, Stage.unwrapPhase, Stage.geocode,
      Stage.statistics]
    Stage.coregister ⟨"boom", "traceA"⟩ rfl rfl rfl rfl (by simp [envA]) rfl

end Sentryal
